import Mathlib

/-!
Shallow embedding of the price-editor application (`src/streamlit_app.py`).

The embedding covers the parts the claims are about:

* the cell/sheet/workbook data model (openpyxl workbooks, with literal cells,
  formula cells carrying an optional cached computed value, and empty cells);
* `get_current_prices` and `update_prices` (cells D4-D7 of the `Prices` sheet);
* the string-to-number coercion performed in `main` before `update_prices`
  (`float(value) if value and value.replace('.','').replace('-','').isdigit()
  else value`, inside a `try/except`);
* the tiered export pipeline `export_sheet_to_csv` (temporary file, optional
  xlwings recalculation, data-only reload, staleness probe over the first ten
  rows, Tier B / Tier C selection, pandas flattening, CSV serialization,
  outer-exception fallback, and `finally` cleanup).

Machine floats are modelled as exact rationals (every string the coercion can
accept denotes a finite decimal, hence a rational); Python `str` is modelled as
`List Char` with ASCII digit semantics; the effectful library calls of the
pipeline (file system, openpyxl, xlwings, pandas) are modelled by explicit
state passing plus fault-injection flags in an environment record, with an
exception modelled as an explicit `raised` outcome.
-/

namespace WirePrice

/-- A spreadsheet cell value: a number (modelled as an exact rational) or a
piece of text (a list of characters). -/
inductive CVal where
  | num : ℚ → CVal
  | str : List Char → CVal
deriving DecidableEq

/-- Content of a cell as openpyxl sees it: empty, a literal value, or a
formula given by its stored text together with the cached computed value last
written by a real spreadsheet engine (absent when the cache is empty). -/
inductive CellContent where
  | empty : CellContent
  | lit : CVal → CellContent
  | formula : List Char → Option CVal → CellContent
deriving DecidableEq

/-- The `.value` attribute of a cell in a workbook loaded in the default
(formula-preserving) mode: `None` for an empty cell, the literal for a literal
cell, and the formula text for a formula cell. -/
def CellContent.value : CellContent → Option CVal
  | CellContent.empty => none
  | CellContent.lit v => some v
  | CellContent.formula t _ => some (CVal.str t)

/-- The content a cell shows after the workbook is reloaded with
`data_only=True`: formula cells are replaced by their cached computed value
(or become empty when no cache is present); other cells are unchanged. -/
def CellContent.dataOnly : CellContent → CellContent
  | CellContent.formula _ (some v) => CellContent.lit v
  | CellContent.formula _ none => CellContent.empty
  | c => c

/-- Assigning a Python value to an openpyxl cell (`sheet[addr] = v`): `None`
clears the cell, a number becomes a literal, and a string becomes a formula
when it starts with an equals sign, otherwise a literal string. -/
def contentOfAssign : Option CVal → CellContent
  | none => CellContent.empty
  | some (CVal.num q) => CellContent.lit (CVal.num q)
  | some (CVal.str s) =>
      if s.head? = some '=' then CellContent.formula s none
      else CellContent.lit (CVal.str s)

theorem value_contentOfAssign (v : Option CVal) :
    (contentOfAssign v).value = v := by
  match v with
  | none => rfl
  | some (CVal.num q) => rfl
  | some (CVal.str s) =>
      show (if s.head? = some '=' then CellContent.formula s none
            else CellContent.lit (CVal.str s)).value = some (CVal.str s)
      by_cases h : s.head? = some '='
      · rw [if_pos h]; rfl
      · rw [if_neg h]; rfl

theorem dataOnly_idem (c : CellContent) : c.dataOnly.dataOnly = c.dataOnly := by
  match c with
  | CellContent.empty => rfl
  | CellContent.lit v => rfl
  | CellContent.formula t (some v) => rfl
  | CellContent.formula t none => rfl

/-!
### The string-to-number coercion of `main` (lines 227-232)

```python
new_prices[cell] = float(value) if value and
    value.replace('.', '').replace('-', '').isdigit() else value
```
wrapped in `try: ... except: new_prices[cell] = value`.

Python's `str.replace` removes every occurrence, so the guard strips all dots
and all minus signs (wherever they occur) and then applies `str.isdigit`
(true exactly on nonempty all-digit strings; digits modelled as ASCII digits).
`float` is modelled by `pyFloat`, restricted to the character domain reachable
through the guard (digits, dots and minus signs): on such strings the builtin
succeeds exactly on an optional single leading minus followed by digits with
at most one dot and at least one digit, returning the exact decimal value.
-/

/-- Python `str.isdigit`: true on nonempty strings of digits only. -/
def pyIsdigit (l : List Char) : Bool :=
  !l.isEmpty && l.all Char.isDigit

/-- The result of `value.replace('.', '').replace('-', '')`: every dot and
every minus sign removed. -/
def stripDotsMinus (s : List Char) : List Char :=
  s.filter (fun c => !(c == '.') && !(c == '-'))

/-- The guard of the conditional expression on line 230:
`value and value.replace('.', '').replace('-', '').isdigit()`. -/
def floatGuard (s : List Char) : Bool :=
  !s.isEmpty && pyIsdigit (stripDotsMinus s)

/-- Numeric value of a list of ASCII digits, most significant first. -/
def digitsVal (l : List Char) : Nat :=
  l.foldl (fun a c => 10 * a + (c.toNat - 48)) 0

/-- Number of characters after the (first) dot. -/
def fracLen (t : List Char) : Nat :=
  ((t.dropWhile (fun c => !(c == '.'))).drop 1).length

/-- The exact decimal value of an unsigned decimal literal `t` (digits with
one optional dot). -/
def pyFloatVal (t : List Char) : ℚ :=
  (digitsVal (t.filter (fun c => !(c == '.'))) : ℚ) / (10 : ℚ) ^ fracLen t

/-- Python `float()` on an unsigned candidate: succeeds exactly when the
string consists of digits and at most one dot, with at least one digit. -/
def pyFloatCore (t : List Char) : Option ℚ :=
  if t.all (fun c => c.isDigit || c == '.')
      && decide (List.count '.' t ≤ 1)
      && !(t.filter (fun c => !(c == '.'))).isEmpty then
    some (pyFloatVal t)
  else none

/-- Python `float()` (modelled on the guard-reachable domain): an optional
single leading minus negates the value of the unsigned remainder. -/
def pyFloat : List Char → Option ℚ
  | [] => none
  | c :: r => if c = '-' then (pyFloatCore r).map (fun q => -q)
              else pyFloatCore (c :: r)

/-- The coercion applied to each submitted price string (line 230 together
with the surrounding `try/except`): when the guard holds, `float` is
attempted; a `float` failure is caught and the literal string is stored; when
the guard fails the literal string is stored directly. -/
def coercePrice (s : List Char) : CVal :=
  if floatGuard s = true then
    match pyFloat s with
    | some q => CVal.num q
    | none => CVal.str s
  else CVal.str s

/-- Removal of at most one leading minus sign. -/
def stripLeadMinus : List Char → List Char
  | [] => []
  | c :: r => if c = '-' then r else c :: r

/-- The spec-side condition of the coercion law, following the spec's words:
after removing at most one decimal point and at most one leading minus sign,
the remaining characters are all decimal digits (and there is at least one
remaining character, as the spec classifies the empty string as text). -/
def specNumeric (s : List Char) : Bool :=
  decide (List.count '.' (stripLeadMinus s) ≤ 1)
    && pyIsdigit ((stripLeadMinus s).filter (fun c => !(c == '.')))

theorem all_digit_dot (t : List Char) :
    (t.filter (fun c => !(c == '.'))).all Char.isDigit
      = t.all (fun c => c.isDigit || c == '.') := by
  induction t with
  | nil => rfl
  | cons c r ih =>
      by_cases hc : c = '.'
      · subst hc; simp [List.filter_cons, ih]
      · have hbeq : (c == '.') = false := by simp [hc]
        simp [List.filter_cons, hbeq, ih, List.all_cons]

theorem pyIsdigit_filter (t : List Char) :
    pyIsdigit (t.filter (fun c => !(c == '.')))
      = (!(t.filter (fun c => !(c == '.'))).isEmpty
          && t.all (fun c => c.isDigit || c == '.')) := by
  unfold pyIsdigit
  rw [all_digit_dot]

theorem pyFloatCore_isSome (t : List Char) :
    (pyFloatCore t).isSome
      = (decide (List.count '.' t ≤ 1)
          && pyIsdigit (t.filter (fun c => !(c == '.')))) := by
  rw [pyIsdigit_filter]
  unfold pyFloatCore
  cases t.all (fun c => c.isDigit || c == '.') <;>
    cases hc : decide (List.count '.' t ≤ 1) <;>
      cases (t.filter (fun c => !(c == '.'))).isEmpty <;> simp_all

theorem specNumeric_eq_isSome (s : List Char) :
    specNumeric s = (pyFloat s).isSome := by
  match s with
  | [] => decide
  | c :: r =>
      by_cases hc : c = '-'
      · subst hc
        unfold specNumeric
        rw [show stripLeadMinus ('-' :: r) = r from by simp [stripLeadMinus]]
        rw [show pyFloat ('-' :: r) = (pyFloatCore r).map (fun q => -q) from by
              simp [pyFloat]]
        rw [Option.isSome_map', pyFloatCore_isSome]
      · unfold specNumeric
        rw [show stripLeadMinus (c :: r) = c :: r from by simp [stripLeadMinus, hc]]
        rw [show pyFloat (c :: r) = pyFloatCore (c :: r) from by simp [pyFloat, hc]]
        rw [pyFloatCore_isSome]

theorem no_minus_of_digits (t : List Char)
    (h : (t.filter (fun c => !(c == '.'))).all Char.isDigit = true) :
    ∀ c ∈ t, ¬(c = '-') := by
  intro c hc hmin
  subst hmin
  have hmem : '-' ∈ t.filter (fun c => !(c == '.')) := by
    rw [List.mem_filter]
    exact ⟨hc, by decide⟩
  rw [List.all_eq_true] at h
  exact absurd (h '-' hmem) (by decide)

theorem filter_dotminus_eq (t : List Char)
    (h : (t.filter (fun c => !(c == '.'))).all Char.isDigit = true) :
    t.filter (fun c => !(c == '.') && !(c == '-'))
      = t.filter (fun c => !(c == '.')) := by
  apply List.filter_congr
  intro c hc
  have hne : (c == '-') = false := by simp [no_minus_of_digits t h c hc]
  simp [hne]

theorem specNumeric_guard (s : List Char) (h : specNumeric s = true) :
    floatGuard s = true := by
  match s with
  | [] => exact absurd h (by decide)
  | c :: r =>
      unfold specNumeric at h
      rw [Bool.and_eq_true] at h
      obtain ⟨-, hdig⟩ := h
      unfold pyIsdigit at hdig
      rw [Bool.and_eq_true] at hdig
      obtain ⟨hne, hall⟩ := hdig
      unfold floatGuard stripDotsMinus
      rw [Bool.and_eq_true]
      refine ⟨rfl, ?_⟩
      by_cases hc : c = '-'
      · subst hc
        rw [show stripLeadMinus ('-' :: r) = r from by simp [stripLeadMinus]]
          at hne hall
        rw [List.filter_cons_of_neg (by decide), filter_dotminus_eq r hall]
        unfold pyIsdigit
        rw [Bool.and_eq_true]
        exact ⟨hne, hall⟩
      · rw [show stripLeadMinus (c :: r) = c :: r from by
              simp [stripLeadMinus, hc]] at hne hall
        rw [filter_dotminus_eq (c :: r) hall]
        unfold pyIsdigit
        rw [Bool.and_eq_true]
        exact ⟨hne, hall⟩

/-- C1. Coercion law of the price-input coercion: a submitted string is stored
as a number equal to its parsed value exactly when, after removing at most one
decimal point and at most one leading minus sign, at least one character
remains and all remaining characters are decimal digits; every other string
(empty, letters, scientific notation, multiple dots, misplaced minus signs) is
stored as the literal string unchanged. -/
theorem coercion_law (s : List Char) :
    (specNumeric s = true ∧ ∃ q, pyFloat s = some q ∧ coercePrice s = CVal.num q)
      ∨ (specNumeric s = false ∧ coercePrice s = CVal.str s) := by
  cases hn : specNumeric s with
  | true =>
      left
      have hsome : (pyFloat s).isSome = true := by
        rw [← specNumeric_eq_isSome]; exact hn
      obtain ⟨q, hq⟩ := Option.isSome_iff_exists.mp hsome
      refine ⟨rfl, q, hq, ?_⟩
      unfold coercePrice
      rw [if_pos (specNumeric_guard s hn), hq]
  | false =>
      right
      refine ⟨rfl, ?_⟩
      have hnone : pyFloat s = none := by
        have h := specNumeric_eq_isSome s
        rw [hn] at h
        cases hp : pyFloat s with
        | none => rfl
        | some q => rw [hp] at h; simp at h
      unfold coercePrice
      by_cases hg : floatGuard s = true
      · rw [if_pos hg, hnone]
      · rw [if_neg hg]

/-!
### Sheets and workbooks

A sheet is a row-major grid of cells (0-based indices in the model; the cell
`D4` of openpyxl is row index 3, column index 3). A workbook is an ordered
association list of named sheets plus the workbook-level calculation mode
(`workbook.calculation.calcMode`).
-/

/-- Write `a` at index `i` of `l`, padding with `d` when `l` is too short
(openpyxl materializes missing cells on assignment). -/
def padSet (d : α) (l : List α) : Nat → α → List α
  | 0, a => a :: l.tail
  | n + 1, a => l.headD d :: padSet d l.tail n a

theorem padSet_getD (d a : α) :
    ∀ (i : Nat) (l : List α) (j : Nat),
      (padSet d l i a).getD j d = if j = i then a else l.getD j d := by
  intro i
  induction i with
  | zero =>
      intro l j
      match j with
      | 0 => rfl
      | k + 1 =>
          show l.tail.getD k d = if k + 1 = 0 then a else l.getD (k + 1) d
          rw [if_neg (Nat.succ_ne_zero k)]
          match l with
          | [] => rfl
          | x :: xs => rfl
  | succ n ih =>
      intro l j
      match j with
      | 0 =>
          show l.headD d = if 0 = n + 1 then a else l.getD 0 d
          rw [if_neg (by omega)]
          match l with
          | [] => rfl
          | x :: xs => rfl
      | k + 1 =>
          show (padSet d l.tail n a).getD k d
              = if k + 1 = n + 1 then a else l.getD (k + 1) d
          rw [ih l.tail k]
          by_cases hk : k = n
          · rw [if_pos hk, if_pos (by rw [hk])]
          · rw [if_neg hk, if_neg (by simp [hk])]
            match l with
            | [] => rfl
            | x :: xs => rfl

/-- A sheet: row-major grid of cell contents. -/
structure Sheet where
  rows : List (List CellContent)
deriving DecidableEq

/-- Cell at (0-based) row `r`, column `c`; absent cells read as empty. -/
def cellAt (sh : Sheet) (r c : Nat) : CellContent :=
  (sh.rows.getD r []).getD c CellContent.empty

/-- Assign content `v` to the cell at row `r`, column `c`. -/
def setAt (sh : Sheet) (r c : Nat) (v : CellContent) : Sheet :=
  Sheet.mk (padSet [] sh.rows r (padSet CellContent.empty (sh.rows.getD r []) c v))

theorem cellAt_setAt (sh : Sheet) (r c : Nat) (v : CellContent) (r' c' : Nat) :
    cellAt (setAt sh r c v) r' c'
      = if r' = r ∧ c' = c then v else cellAt sh r' c' := by
  unfold cellAt setAt
  rw [padSet_getD]
  by_cases hr : r' = r
  · rw [if_pos hr, padSet_getD]
    by_cases hc : c' = c
    · rw [if_pos hc, if_pos ⟨hr, hc⟩]
    · rw [if_neg hc, if_neg (fun h => hc h.2), hr]
  · rw [if_neg hr, if_neg (fun h => hr h.1)]

/-- The sheet after a `data_only=True` reload: every cell replaced by its
cached-values view. -/
def Sheet.dataOnly (sh : Sheet) : Sheet :=
  Sheet.mk (sh.rows.map (fun row => row.map CellContent.dataOnly))

/-- A workbook: ordered named sheets plus the calculation mode. -/
structure Workbook where
  sheets : List (String × Sheet)
  calcMode : String
deriving DecidableEq

/-- The ordered sheet names (`workbook.sheetnames`). -/
def sheetNames (wb : Workbook) : List String :=
  wb.sheets.map Prod.fst

/-- Membership test `name in workbook.sheetnames`. -/
def hasSheet (wb : Workbook) (nm : String) : Bool :=
  wb.sheets.any (fun p => p.1 == nm)

/-- Sheet access `workbook[name]` (first sheet with the given name). -/
def lookupSheet (wb : Workbook) (nm : String) : Option Sheet :=
  (wb.sheets.find? (fun p => p.1 == nm)).map Prod.snd

theorem hasSheet_eq_isSome (wb : Workbook) (nm : String) :
    hasSheet wb nm = (lookupSheet wb nm).isSome := by
  unfold hasSheet lookupSheet
  rw [Option.isSome_map']
  induction wb.sheets with
  | nil => rfl
  | cons p l ih =>
      cases hp : p.1 == nm with
      | true => simp [List.any_cons, List.find?_cons, hp]
      | false => simp [List.any_cons, List.find?_cons, hp, ih]

theorem lookupSheet_mapValues (g : String → Sheet → Sheet)
    (l : List (String × Sheet)) (cm cm' : String) (nm : String) :
    lookupSheet (Workbook.mk (l.map (fun p => (p.1, g p.1 p.2))) cm) nm
      = (lookupSheet (Workbook.mk l cm') nm).map (g nm) := by
  unfold lookupSheet
  induction l with
  | nil => rfl
  | cons p l ih =>
      cases hp : p.1 == nm with
      | true =>
          have hnm : p.1 = nm := by simpa using hp
          simp [List.find?_cons, hp, hnm]
      | false =>
          simp only [List.map_cons, List.find?_cons, hp]
          exact ih

/-- The workbook after a `data_only=True` reload. -/
def dataOnlyW (wb : Workbook) : Workbook :=
  Workbook.mk (wb.sheets.map (fun p => (p.1, p.2.dataOnly))) wb.calcMode

/-!
### The price cell accessors (`get_current_prices`, `update_prices`)
-/

/-- The four submitted price values for D4-D7. -/
structure PriceVals where
  d4 : Option CVal
  d5 : Option CVal
  d6 : Option CVal
  d7 : Option CVal
deriving DecidableEq

/-- Model of `get_current_prices`: `None` when the `Prices` sheet is absent,
otherwise the `.value` of cells D4-D7 (0-based grid indices (3,3)-(6,3)). -/
def get_current_prices (wb : Workbook) : Option PriceVals :=
  match lookupSheet wb "Prices" with
  | none => none
  | some sh =>
      some (PriceVals.mk (cellAt sh 3 3).value (cellAt sh 4 3).value
        (cellAt sh 5 3).value (cellAt sh 6 3).value)

/-- The four cell assignments of `update_prices`. -/
def setPrices (sh : Sheet) (np : PriceVals) : Sheet :=
  setAt (setAt (setAt (setAt sh 3 3 (contentOfAssign np.d4))
    4 3 (contentOfAssign np.d5)) 5 3 (contentOfAssign np.d6))
    6 3 (contentOfAssign np.d7)

/-- Model of `update_prices`: `False` (workbook untouched) when the `Prices`
sheet is absent; otherwise assigns D4-D7 on the `Prices` sheet, sets the
workbook calculation mode to `auto`, and returns `True`. -/
def update_prices (wb : Workbook) (np : PriceVals) : Bool × Workbook :=
  match lookupSheet wb "Prices" with
  | none => (false, wb)
  | some _ =>
      (true, Workbook.mk
        (wb.sheets.map (fun p =>
          (p.1, if p.1 == "Prices" then setPrices p.2 np else p.2)))
        "auto")

/-!
### The export pipeline (`export_sheet_to_csv`)

The pipeline's effects are modelled by explicit state passing: the temporary
file is an optional workbook value (its content; `none` while no valid
workbook has been written to it), and the external library calls carry
fault-injection flags in an `Env` record. An exception at any step is the
explicit outcome `ExStep.raised`, propagated to the model of the outer
`except Exception` handler; the `finally` cleanup is applied on every path
that created the temporary file.
-/

/-- Status of the optional xlwings engine (Tier A): the import fails
(`ImportError`, caught by the inner handler), or the engine is present and
recalculates, or the engine is present but raises at run time (any exception
other than `ImportError`, not caught by the inner handler). -/
inductive XlwStatus where
  | absent : XlwStatus
  | works : XlwStatus
  | raises : XlwStatus
deriving DecidableEq

/-- Environment of one export invocation: the semantics of a successful
xlwings recalculation pass, and fault flags for each effectful library call
(`true` means the call raises). -/
structure Env where
  recalc : Workbook → Workbook
  xlw : XlwStatus
  saveFails : Bool
  loadFails : Bool
  calcSaveFails : Bool
  readFails : Bool
  fallbackReadFails : Bool
  unlinkFails : Bool

/-- Which branch of the pipeline produced the outcome. -/
inductive Tier where
  | missing : Tier
  | tierB : Tier
  | tierC : Tier
  | innerNone : Tier
  | fallback : Tier
  | failed : Tier
deriving DecidableEq

/-- A flattened pandas dataframe: the header row (taken from the sheet's
first row) and the data rows. -/
structure DF where
  header : List (Option CVal)
  data : List (List (Option CVal))
deriving DecidableEq

/-- Result of the body of the `try` block: an exception propagating to the
outer handler, the early `return None` (target sheet missing after reload),
or a flattened dataframe with the tier that produced it. -/
inductive ExStep where
  | raised : ExStep
  | retNone : ExStep
  | retCsv : DF → Tier → ExStep

/-- State after the `try` body: the temporary file's content and the
control-flow result. -/
structure MainOut where
  file : Option Workbook
  res : ExStep

/-- Inner loop of the staleness probe over one row (`rIdx` is the 0-based row
index, `cIdx` the 0-based index of the first cell of the remaining row): a
cell with value `None` trips the probe unless its coordinate is `A1`, `B1` or
`C1` (row index 0, column index below 3). -/
def probeRow (rIdx : Nat) : Nat → List CellContent → Bool
  | _, [] => false
  | cIdx, c :: rest =>
      (decide (c.value = none) && !(decide (rIdx = 0) && decide (cIdx < 3)))
        || probeRow rIdx (cIdx + 1) rest

/-- Outer loop of the staleness probe. -/
def probeRows : Nat → List (List CellContent) → Bool
  | _, [] => false
  | rIdx, row :: rest => probeRow rIdx 0 row || probeRows (rIdx + 1) rest

/-- The staleness probe (lines 86-95): scan the first ten rows of the sheet
for a `None` value outside the presumed header cells `A1`, `B1`, `C1` (the
grid is taken as stored; openpyxl pads every iterated row to the sheet's
maximal column, so the embedding reads sheets as rectangular grids). -/
def hasNoneValues (sh : Sheet) : Bool :=
  probeRows 0 (sh.rows.take 10)

/-- Flattening of a sheet into a dataframe, as pandas does: cached computed
values preferred, the first row as the header, the remaining rows as data. -/
def flattenSheet (sh : Sheet) : DF :=
  DF.mk
    ((sh.rows.map (fun row => row.map (fun c => c.dataOnly.value))).headD [])
    (sh.rows.map (fun row => row.map (fun c => c.dataOnly.value))).tail

/-- Model of `pd.read_excel(path, sheet_name=nm)`: pandas opens the file with
cached computed values preferred and flattens the requested sheet; a missing
sheet makes the call raise, which is modelled as `none`. -/
def pdReadExcel (f : Workbook) (nm : String) : Option DF :=
  match lookupSheet f nm with
  | none => none
  | some sh => some (flattenSheet sh)

/-!
### CSV serialization (`df.to_csv(index=False)` followed by `.encode()`)

The dataframe is rendered comma-separated with the header line first and no
index column, one line per row, each terminated by a newline; the text is then
UTF-8 encoded. Rendering of an individual numeric cell abstracts pandas'
float formatting (the claims quantify over the CSV structure, not over the
digit strings pandas prints); empty cells render as empty fields and text
fields are minimally quoted as `csv.QUOTE_MINIMAL` does.
-/

/-- Double every quote character, for quoted CSV fields. -/
def escQuote : List Char → List Char
  | [] => []
  | c :: r => if c = '"' then '"' :: '"' :: escQuote r else c :: escQuote r

/-- Minimal CSV quoting of a text field. -/
def csvQuote (s : List Char) : List Char :=
  if s.any (fun c => c == ',' || c == '"' || c == '\n') then
    '"' :: (escQuote s ++ ['"'])
  else s

/-- Decimal digits of a natural number. -/
def natChars (n : Nat) : List Char :=
  Nat.toDigits 10 n

/-- Unsigned part of the numeric rendering. -/
def renderRatAbs (q : ℚ) : List Char :=
  if q.den = 1 then natChars q.num.toNat ++ ['.', '0']
  else natChars q.num.toNat ++ '/' :: natChars q.den

/-- Rendering of a numeric cell (abstraction of pandas' float formatting):
integers print with a trailing `.0` as Python floats do; non-integer
rationals print as exact fractions. -/
def renderRat (q : ℚ) : List Char :=
  if q < 0 then '-' :: renderRatAbs (-q) else renderRatAbs q

/-- Rendering of one CSV field: missing values become empty fields. -/
def renderCell : Option CVal → List Char
  | none => []
  | some (CVal.num q) => renderRat q
  | some (CVal.str s) => csvQuote s

/-- One comma-separated CSV line. -/
def csvLine : List (Option CVal) → List Char
  | [] => []
  | [v] => renderCell v
  | v :: rest => renderCell v ++ ',' :: csvLine rest

/-- The data lines of the CSV text, each newline-terminated. -/
def csvLines : List (List (Option CVal)) → List Char
  | [] => []
  | r :: rest => csvLine r ++ '\n' :: csvLines rest

/-- Model of `df.to_csv(index=False)`: the header line first, then the data
rows, with no index column. -/
def dfToCsv (df : DF) : List Char :=
  csvLine df.header ++ '\n' :: csvLines df.data

/-- UTF-8 encoding of one character. -/
def utf8Char (c : Char) : List Nat :=
  let n := c.toNat
  if n < 128 then [n]
  else if n < 2048 then [192 + n / 64, 128 + n % 64]
  else if n < 65536 then [224 + n / 4096, 128 + (n / 64) % 64, 128 + n % 64]
  else [240 + n / 262144, 128 + (n / 4096) % 64, 128 + (n / 64) % 64,
    128 + n % 64]

/-- Model of `str.encode()`: the UTF-8 byte sequence of the text. -/
def utf8Bytes : List Char → List Nat
  | [] => []
  | c :: r => utf8Char c ++ utf8Bytes r

/-- The steps after Tier A inside the `try` block, operating on the temporary
file's content `f1`: data-only reload, sheet-presence recheck, staleness
probe, and the Tier B / Tier C reads. -/
def mainAfterTierA (env : Env) (nm : String) (f1 : Workbook) : MainOut :=
  if env.loadFails then MainOut.mk (some f1) ExStep.raised
  else
    match lookupSheet (dataOnlyW f1) nm with
    | none => MainOut.mk (some f1) ExStep.retNone
    | some sheet =>
        if hasNoneValues sheet then
          if env.readFails then MainOut.mk (some f1) ExStep.raised
          else
            match pdReadExcel f1 nm with
            | none => MainOut.mk (some f1) ExStep.raised
            | some df => MainOut.mk (some f1) (ExStep.retCsv df Tier.tierB)
        else
          if env.calcSaveFails then MainOut.mk (some f1) ExStep.raised
          else if env.readFails then MainOut.mk (some (dataOnlyW f1)) ExStep.raised
          else
            match pdReadExcel (dataOnlyW f1) nm with
            | none => MainOut.mk (some (dataOnlyW f1)) ExStep.raised
            | some df =>
                MainOut.mk (some (dataOnlyW f1)) (ExStep.retCsv df Tier.tierC)

/-- The body of the `try` block: save the in-memory workbook to the temporary
file, run the optional Tier A recalculation, then continue with
`mainAfterTierA`. -/
def mainBody (env : Env) (wb : Workbook) (nm : String) : MainOut :=
  if env.saveFails then MainOut.mk none ExStep.raised
  else
    match env.xlw with
    | XlwStatus.raises => MainOut.mk (some wb) ExStep.raised
    | XlwStatus.absent => mainAfterTierA env nm wb
    | XlwStatus.works => mainAfterTierA env nm (env.recalc wb)

/-- Observable outcome of one export invocation: the returned CSV bytes (or
`None`), the branch that produced them, whether the temporary file was
created and whether it still exists afterwards, and whether the outer
exception handler ran; `df` records the dataframe that was serialized. -/
structure Outcome where
  ret : Option (List Nat)
  tier : Tier
  tmpCreated : Bool
  tmpAfter : Bool
  caught : Bool
  df : Option DF

/-- The `except`-branch recovery read
(`pd.read_excel(tmp_file.name, sheet_name=sheet_name)`): raises when the
temporary file holds no valid workbook or the sheet is missing. -/
def fallbackRead (env : Env) (file : Option Workbook) (nm : String) :
    Option DF :=
  if env.fallbackReadFails then none
  else
    match file with
    | none => none
    | some f => pdReadExcel f nm

/-- Model of `export_sheet_to_csv`: sheet-presence guard before any temporary
file work, the tiered `try` body, the outer `except` fallback, and the
`finally` cleanup (the temporary file survives only when `os.unlink` itself
raises, which is swallowed). -/
def export_sheet_to_csv (env : Env) (wb : Workbook) (nm : String) : Outcome :=
  if hasSheet wb nm then
    match (mainBody env wb nm).res with
    | ExStep.retCsv df t =>
        Outcome.mk (some (utf8Bytes (dfToCsv df))) t true env.unlinkFails
          false (some df)
    | ExStep.retNone =>
        Outcome.mk none Tier.innerNone true env.unlinkFails false none
    | ExStep.raised =>
        match fallbackRead env (mainBody env wb nm).file nm with
        | some df =>
            Outcome.mk (some (utf8Bytes (dfToCsv df))) Tier.fallback true
              env.unlinkFails true (some df)
        | none =>
            Outcome.mk none Tier.failed true env.unlinkFails true none
  else Outcome.mk none Tier.missing false false false none

/-!
### Shared lemmas about the pipeline
-/

theorem lookupSheet_dataOnlyW (wb : Workbook) (nm : String) :
    lookupSheet (dataOnlyW wb) nm = (lookupSheet wb nm).map Sheet.dataOnly :=
  lookupSheet_mapValues (fun _ s => s.dataOnly) wb.sheets wb.calcMode
    wb.calcMode nm

theorem map_value_dataOnly (row : List CellContent) :
    (row.map CellContent.dataOnly).map (fun c => c.dataOnly.value)
      = row.map (fun c => c.dataOnly.value) := by
  induction row with
  | nil => rfl
  | cons c r ih => simp only [List.map_cons, ih, dataOnly_idem]

theorem rows_value_dataOnly :
    ∀ rows : List (List CellContent),
      (rows.map (fun row => row.map CellContent.dataOnly)).map
          (fun row => row.map (fun c => c.dataOnly.value))
        = rows.map (fun row => row.map (fun c => c.dataOnly.value))
  | [] => rfl
  | r :: t => by
      simp only [List.map_cons, rows_value_dataOnly t, map_value_dataOnly]

theorem flattenSheet_dataOnly (sh : Sheet) :
    flattenSheet (Sheet.dataOnly sh) = flattenSheet sh := by
  unfold flattenSheet Sheet.dataOnly
  rw [rows_value_dataOnly]

/-- Evaluation of the whole pipeline in a fault-free environment with no
recalculation engine: the export succeeds with the flattened sheet, through
Tier B exactly when the staleness probe trips on the data-only reload and
through Tier C otherwise. -/
theorem export_noFault (env : Env) (wb : Workbook) (nm : String) (sh : Sheet)
    (hs : lookupSheet wb nm = some sh) (h1 : env.saveFails = false)
    (h2 : env.xlw = XlwStatus.absent) (h3 : env.loadFails = false)
    (h4 : env.readFails = false) (h5 : env.calcSaveFails = false) :
    export_sheet_to_csv env wb nm
      = Outcome.mk (some (utf8Bytes (dfToCsv (flattenSheet sh))))
          (if hasNoneValues sh.dataOnly then Tier.tierB else Tier.tierC)
          true env.unlinkFails false (some (flattenSheet sh)) := by
  have hd1 : pdReadExcel wb nm = some (flattenSheet sh) := by
    unfold pdReadExcel; rw [hs]
  have hd2 : pdReadExcel (dataOnlyW wb) nm = some (flattenSheet sh) := by
    unfold pdReadExcel
    rw [lookupSheet_dataOnlyW, hs, Option.map_some']
    show some (flattenSheet (Sheet.dataOnly sh)) = some (flattenSheet sh)
    rw [flattenSheet_dataOnly]
  have hhas : hasSheet wb nm = true := by
    rw [hasSheet_eq_isSome, hs]; rfl
  have hmb : mainBody env wb nm
      = MainOut.mk
          (if hasNoneValues sh.dataOnly then some wb else some (dataOnlyW wb))
          (ExStep.retCsv (flattenSheet sh)
            (if hasNoneValues sh.dataOnly then Tier.tierB else Tier.tierC)) := by
    unfold mainBody mainAfterTierA
    rw [h1, h2, h3, lookupSheet_dataOnlyW, hs, Option.map_some']
    cases hpb : hasNoneValues (Sheet.dataOnly sh) with
    | true => simp [hpb, h4, hd1]
    | false => simp [hpb, h4, h5, hd2]
  unfold export_sheet_to_csv
  rw [hmb, hhas]
  rfl

/-!
### Shared lemmas about the price writer
-/

theorem cellAt_setPrices_d4 (sh : Sheet) (np : PriceVals) :
    cellAt (setPrices sh np) 3 3 = contentOfAssign np.d4 := by
  unfold setPrices
  rw [cellAt_setAt, if_neg (by simp), cellAt_setAt, if_neg (by simp),
    cellAt_setAt, if_neg (by simp), cellAt_setAt, if_pos ⟨rfl, rfl⟩]

theorem cellAt_setPrices_d5 (sh : Sheet) (np : PriceVals) :
    cellAt (setPrices sh np) 4 3 = contentOfAssign np.d5 := by
  unfold setPrices
  rw [cellAt_setAt, if_neg (by simp), cellAt_setAt, if_neg (by simp),
    cellAt_setAt, if_pos ⟨rfl, rfl⟩]

theorem cellAt_setPrices_d6 (sh : Sheet) (np : PriceVals) :
    cellAt (setPrices sh np) 5 3 = contentOfAssign np.d6 := by
  unfold setPrices
  rw [cellAt_setAt, if_neg (by simp), cellAt_setAt, if_pos ⟨rfl, rfl⟩]

theorem cellAt_setPrices_d7 (sh : Sheet) (np : PriceVals) :
    cellAt (setPrices sh np) 6 3 = contentOfAssign np.d7 := by
  unfold setPrices
  rw [cellAt_setAt, if_pos ⟨rfl, rfl⟩]

theorem cellAt_setPrices_frame (sh : Sheet) (np : PriceVals) (r c : Nat)
    (h : ¬(c = 3 ∧ (r = 3 ∨ r = 4 ∨ r = 5 ∨ r = 6))) :
    cellAt (setPrices sh np) r c = cellAt sh r c := by
  have h6 : ¬(r = 6 ∧ c = 3) :=
    fun hh => h ⟨hh.2, Or.inr (Or.inr (Or.inr hh.1))⟩
  have h5 : ¬(r = 5 ∧ c = 3) :=
    fun hh => h ⟨hh.2, Or.inr (Or.inr (Or.inl hh.1))⟩
  have h4 : ¬(r = 4 ∧ c = 3) := fun hh => h ⟨hh.2, Or.inr (Or.inl hh.1)⟩
  have h3 : ¬(r = 3 ∧ c = 3) := fun hh => h ⟨hh.2, Or.inl hh.1⟩
  unfold setPrices
  rw [cellAt_setAt, if_neg h6, cellAt_setAt, if_neg h5, cellAt_setAt,
    if_neg h4, cellAt_setAt, if_neg h3]

theorem lookupSheet_setPrices (wb : Workbook) (np : PriceVals) (nm : String) :
    lookupSheet (Workbook.mk (wb.sheets.map (fun p =>
        (p.1, if p.1 == "Prices" then setPrices p.2 np else p.2))) "auto") nm
      = (lookupSheet wb nm).map
          (fun sh => if nm == "Prices" then setPrices sh np else sh) :=
  lookupSheet_mapValues (fun n s => if n == "Prices" then setPrices s np else s)
    wb.sheets "auto" wb.calcMode nm

theorem map_fst_setPrices (np : PriceVals) :
    ∀ l : List (String × Sheet),
      List.map Prod.fst (l.map (fun p =>
          (p.1, if p.1 == "Prices" then setPrices p.2 np else p.2)))
        = List.map Prod.fst l
  | [] => rfl
  | p :: t => by simp only [List.map_cons, map_fst_setPrices np t]

/-!
### Concrete fixtures for the witness theorems
-/

/-- A fault-free environment in which xlwings is not installed. -/
def envOk : Env :=
  Env.mk id XlwStatus.absent false false false false false false

/-- An environment in which xlwings imports but raises at run time. -/
def envRaises : Env :=
  Env.mk id XlwStatus.raises false false false false false false

/-- An environment in which the data-only reload raises. -/
def envLoadFail : Env :=
  Env.mk id XlwStatus.absent false true false false false false

/-- An `Export` sheet with an unresolved formula in its data row, so the
staleness probe trips. -/
def shExportB : Sheet :=
  Sheet.mk
    [[CellContent.lit (CVal.str ['S', 'K', 'U']),
      CellContent.lit (CVal.str ['P'])],
     [CellContent.formula ['=', 'D', '4'] none, CellContent.empty]]

/-- A workbook holding only `shExportB` as its `Export` sheet. -/
def wbExportB : Workbook := Workbook.mk [("Export", shExportB)] "auto"

/-- An `Export` sheet with literal values everywhere, so the staleness probe
passes. -/
def shExportC : Sheet :=
  Sheet.mk
    [[CellContent.lit (CVal.str ['S', 'K', 'U'])],
     [CellContent.lit (CVal.str ['x'])]]

/-- A workbook holding only `shExportC` as its `Export` sheet. -/
def wbExportC : Workbook := Workbook.mk [("Export", shExportC)] "auto"

/-- A `Prices` sheet with string values in D4-D7 (rows 4-7 of column D). -/
def shPrices : Sheet :=
  Sheet.mk
    [[], [], [],
     [CellContent.empty, CellContent.empty, CellContent.empty,
      CellContent.lit (CVal.str ['1', '0'])],
     [CellContent.empty, CellContent.empty, CellContent.empty,
      CellContent.lit (CVal.str ['2', '0'])],
     [CellContent.empty, CellContent.empty, CellContent.empty,
      CellContent.lit (CVal.str ['3', '0'])],
     [CellContent.empty, CellContent.empty, CellContent.empty,
      CellContent.lit (CVal.str ['4', '0'])]]

/-- A workbook holding `shPrices` as its `Prices` sheet plus `shExportC`. -/
def wbPrices : Workbook :=
  Workbook.mk [("Prices", shPrices), ("Export", shExportC)] "auto"

/-- An empty workbook, with no sheets at all. -/
def wbEmpty : Workbook := Workbook.mk [] "auto"

/-!
### The claims
-/

/-- C4. Temporary-file cleanup: on every invocation, the temporary file is
absent afterwards unless the `os.unlink` call itself raised, and a failing
unlink is swallowed — the returned data of the call does not depend on the
unlink fault at all, so the cleanup failure never escalates to the caller. -/
theorem temp_file_cleanup (env : Env) (wb : Workbook) (nm : String) :
    ((export_sheet_to_csv env wb nm).tmpAfter = false
      ∨ env.unlinkFails = true)
    ∧ (export_sheet_to_csv env wb nm).ret
        = (export_sheet_to_csv (Env.mk env.recalc env.xlw env.saveFails
            env.loadFails env.calcSaveFails env.readFails
            env.fallbackReadFails false) wb nm).ret := by
  constructor
  · cases hu : env.unlinkFails with
    | true => exact Or.inr rfl
    | false =>
        left
        unfold export_sheet_to_csv
        by_cases h : hasSheet wb nm = true
        · rw [h]
          cases hres : (mainBody env wb nm).res with
          | raised =>
              cases hf : fallbackRead env (mainBody env wb nm).file nm <;>
                simp [hu]
          | retNone => simp [hu]
          | retCsv df t => simp [hu]
        · rw [if_neg h]
  · have hm : mainBody (Env.mk env.recalc env.xlw env.saveFails env.loadFails
        env.calcSaveFails env.readFails env.fallbackReadFails false) wb nm
        = mainBody env wb nm := by
      cases env
      rfl
    have hf : fallbackRead (Env.mk env.recalc env.xlw env.saveFails
        env.loadFails env.calcSaveFails env.readFails env.fallbackReadFails
        false) (mainBody env wb nm).file nm
        = fallbackRead env (mainBody env wb nm).file nm := by
      cases env
      rfl
    unfold export_sheet_to_csv
    rw [hm, hf]
    by_cases h : hasSheet wb nm = true
    · rw [h]
      cases hres : (mainBody env wb nm).res with
      | raised =>
          cases hff : fallbackRead env (mainBody env wb nm).file nm <;> rfl
      | retNone => rfl
      | retCsv df t => rfl
    · rw [if_neg h, if_neg h]

/-- C5. Missing-sheet contract: with no `Prices` sheet, `get_current_prices`
returns the absent sentinel `None` and `update_prices` returns `False` with
the workbook unmodified; with the export target sheet absent, the export
returns `None` before any temporary-file work. -/
theorem missing_sheet_contract (env : Env) (wb : Workbook) (np : PriceVals)
    (nm : String) (hp : lookupSheet wb "Prices" = none)
    (he : hasSheet wb nm = false) :
    get_current_prices wb = none
    ∧ update_prices wb np = (false, wb)
    ∧ (export_sheet_to_csv env wb nm).ret = none
    ∧ (export_sheet_to_csv env wb nm).tmpCreated = false := by
  refine ⟨?_, ?_, ?_, ?_⟩
  · unfold get_current_prices
    rw [hp]
  · unfold update_prices
    rw [hp]
  · unfold export_sheet_to_csv
    rw [if_neg (by simp [he])]
  · unfold export_sheet_to_csv
    rw [if_neg (by simp [he])]

theorem missing_sheet_contract_witness :
    lookupSheet wbEmpty "Prices" = none
    ∧ hasSheet wbEmpty "Export" = false
    ∧ (get_current_prices wbEmpty = none
        ∧ update_prices wbEmpty (PriceVals.mk none none none none)
            = (false, wbEmpty)
        ∧ (export_sheet_to_csv envOk wbEmpty "Export").ret = none
        ∧ (export_sheet_to_csv envOk wbEmpty "Export").tmpCreated = false) :=
  ⟨by decide, by decide,
    missing_sheet_contract envOk wbEmpty (PriceVals.mk none none none none)
      "Export" (by decide) (by decide)⟩

/-- C2. Staleness probe and tier selection: in a fault-free run without the
recalculation engine, after the data-only reload the pipeline takes Tier B
exactly when the probe (which looks only at the first ten rows) finds an
empty value outside the header cells, and Tier C exactly otherwise; in Tier B
the dataframe comes from the originally persisted file, in Tier C from the
cached-value reload. -/
theorem staleness_probe_tier_selection (env : Env) (wb : Workbook)
    (nm : String) (sh : Sheet) (hs : lookupSheet wb nm = some sh)
    (h1 : env.saveFails = false) (h2 : env.xlw = XlwStatus.absent)
    (h3 : env.loadFails = false) (h4 : env.readFails = false)
    (h5 : env.calcSaveFails = false) :
    ((export_sheet_to_csv env wb nm).tier = Tier.tierB
        ↔ hasNoneValues sh.dataOnly = true)
    ∧ ((export_sheet_to_csv env wb nm).tier = Tier.tierC
        ↔ hasNoneValues sh.dataOnly = false)
    ∧ ((export_sheet_to_csv env wb nm).tier = Tier.tierB
        → (export_sheet_to_csv env wb nm).df = pdReadExcel wb nm)
    ∧ ((export_sheet_to_csv env wb nm).tier = Tier.tierC
        → (export_sheet_to_csv env wb nm).df = pdReadExcel (dataOnlyW wb) nm) := by
  have hd1 : pdReadExcel wb nm = some (flattenSheet sh) := by
    unfold pdReadExcel; rw [hs]
  have hd2 : pdReadExcel (dataOnlyW wb) nm = some (flattenSheet sh) := by
    unfold pdReadExcel
    rw [lookupSheet_dataOnlyW, hs, Option.map_some']
    show some (flattenSheet (Sheet.dataOnly sh)) = some (flattenSheet sh)
    rw [flattenSheet_dataOnly]
  rw [export_noFault env wb nm sh hs h1 h2 h3 h4 h5]
  cases hpb : hasNoneValues sh.dataOnly with
  | true => simp [hpb, hd1]
  | false => simp [hpb, hd2]

theorem staleness_probe_tier_selection_witness :
    lookupSheet wbExportB "Export" = some shExportB
    ∧ envOk.saveFails = false
    ∧ (((export_sheet_to_csv envOk wbExportB "Export").tier = Tier.tierB
          ↔ hasNoneValues shExportB.dataOnly = true)
        ∧ ((export_sheet_to_csv envOk wbExportB "Export").tier = Tier.tierC
          ↔ hasNoneValues shExportB.dataOnly = false)
        ∧ ((export_sheet_to_csv envOk wbExportB "Export").tier = Tier.tierB
          → (export_sheet_to_csv envOk wbExportB "Export").df
              = pdReadExcel wbExportB "Export")
        ∧ ((export_sheet_to_csv envOk wbExportB "Export").tier = Tier.tierC
          → (export_sheet_to_csv envOk wbExportB "Export").df
              = pdReadExcel (dataOnlyW wbExportB) "Export")) :=
  ⟨by decide, rfl,
    staleness_probe_tier_selection envOk wbExportB "Export" shExportB
      (by decide) rfl rfl rfl rfl rfl⟩

/-- C3 counterexample: the claim says any failure of Tier A must not block
the staleness probe and Tiers B/C, but when the engine is importable and
raises at run time (any exception other than `ImportError`), the pipeline
jumps to the outer fallback and neither Tier B nor Tier C executes. -/
theorem tierA_runtime_failure_skips_tiers :
    (export_sheet_to_csv envRaises wbExportC "Export").tier = Tier.fallback
    ∧ ¬((export_sheet_to_csv envRaises wbExportC "Export").tier = Tier.tierB
        ∨ (export_sheet_to_csv envRaises wbExportC "Export").tier
            = Tier.tierC) := by
  decide

/-- C3 amended. Tier A is a soft dependency only for its absence: when the
xlwings import fails (`ImportError`), the remaining tiers run and the export
ends in Tier B or Tier C; but when Tier A is present and fails at run time,
the exception skips the remaining tiers and control reaches the outer
exception handler instead. -/
theorem tierA_soft_dependency (env : Env) (wb : Workbook) (nm : String)
    (sh : Sheet) (hs : lookupSheet wb nm = some sh)
    (h1 : env.saveFails = false) (h3 : env.loadFails = false)
    (h4 : env.readFails = false) (h5 : env.calcSaveFails = false)
    (hx : env.xlw = XlwStatus.absent) :
    ((export_sheet_to_csv env wb nm).tier = Tier.tierB
      ∨ (export_sheet_to_csv env wb nm).tier = Tier.tierC)
    ∧ ((export_sheet_to_csv (Env.mk env.recalc XlwStatus.raises env.saveFails
          env.loadFails env.calcSaveFails env.readFails env.fallbackReadFails
          env.unlinkFails) wb nm).caught = true
        ∧ ((export_sheet_to_csv (Env.mk env.recalc XlwStatus.raises
              env.saveFails env.loadFails env.calcSaveFails env.readFails
              env.fallbackReadFails env.unlinkFails) wb nm).tier
              = Tier.fallback
          ∨ (export_sheet_to_csv (Env.mk env.recalc XlwStatus.raises
              env.saveFails env.loadFails env.calcSaveFails env.readFails
              env.fallbackReadFails env.unlinkFails) wb nm).tier
              = Tier.failed)) := by
  have hhas : hasSheet wb nm = true := by
    rw [hasSheet_eq_isSome, hs]; rfl
  constructor
  · rw [export_noFault env wb nm sh hs h1 hx h3 h4 h5]
    cases hpb : hasNoneValues sh.dataOnly with
    | true => simp [hpb]
    | false => simp [hpb]
  · have hmb : mainBody (Env.mk env.recalc XlwStatus.raises env.saveFails
        env.loadFails env.calcSaveFails env.readFails env.fallbackReadFails
        env.unlinkFails) wb nm = MainOut.mk (some wb) ExStep.raised := by
      unfold mainBody
      rw [show (Env.mk env.recalc XlwStatus.raises env.saveFails env.loadFails
        env.calcSaveFails env.readFails env.fallbackReadFails
        env.unlinkFails).saveFails = false from h1]
      rfl
    unfold export_sheet_to_csv
    rw [hmb, hhas]
    cases hf : fallbackRead (Env.mk env.recalc XlwStatus.raises env.saveFails
        env.loadFails env.calcSaveFails env.readFails env.fallbackReadFails
        env.unlinkFails) (MainOut.mk (some wb) ExStep.raised).file nm with
    | some d => exact ⟨rfl, Or.inl rfl⟩
    | none => exact ⟨rfl, Or.inr rfl⟩

theorem tierA_soft_dependency_witness :
    lookupSheet wbExportC "Export" = some shExportC
    ∧ envOk.xlw = XlwStatus.absent
    ∧ ((((export_sheet_to_csv envOk wbExportC "Export").tier = Tier.tierB
          ∨ (export_sheet_to_csv envOk wbExportC "Export").tier = Tier.tierC))
        ∧ ((export_sheet_to_csv (Env.mk envOk.recalc XlwStatus.raises
              envOk.saveFails envOk.loadFails envOk.calcSaveFails
              envOk.readFails envOk.fallbackReadFails
              envOk.unlinkFails) wbExportC "Export").caught = true
            ∧ ((export_sheet_to_csv (Env.mk envOk.recalc XlwStatus.raises
                  envOk.saveFails envOk.loadFails envOk.calcSaveFails
                  envOk.readFails envOk.fallbackReadFails
                  envOk.unlinkFails) wbExportC "Export").tier = Tier.fallback
              ∨ (export_sheet_to_csv (Env.mk envOk.recalc XlwStatus.raises
                  envOk.saveFails envOk.loadFails envOk.calcSaveFails
                  envOk.readFails envOk.fallbackReadFails
                  envOk.unlinkFails) wbExportC "Export").tier
                  = Tier.failed))) :=
  ⟨by decide, rfl,
    tierA_soft_dependency envOk wbExportC "Export" shExportC (by decide)
      rfl rfl rfl rfl rfl⟩

/-- C6. Export fallback and final failure: whenever a failure inside the
`try` body reaches the outer exception handler, the pipeline retries with the
plain reload-and-flatten read of the persisted file; it returns that CSV when
the retry succeeds, and returns the failure sentinel `None` exactly when the
retry also fails. -/
theorem export_fallback_contract (env : Env) (wb : Workbook) (nm : String)
    (hc : (export_sheet_to_csv env wb nm).caught = true) :
    ((export_sheet_to_csv env wb nm).tier = Tier.fallback
      ∧ ∃ d, fallbackRead env (mainBody env wb nm).file nm = some d
          ∧ (export_sheet_to_csv env wb nm).ret
              = some (utf8Bytes (dfToCsv d)))
    ∨ ((export_sheet_to_csv env wb nm).tier = Tier.failed
      ∧ fallbackRead env (mainBody env wb nm).file nm = none
      ∧ (export_sheet_to_csv env wb nm).ret = none) := by
  by_cases hh : hasSheet wb nm = true
  · unfold export_sheet_to_csv at hc ⊢
    rw [hh] at hc ⊢
    cases hres : (mainBody env wb nm).res with
    | raised =>
        cases hf : fallbackRead env (mainBody env wb nm).file nm with
        | some d => exact Or.inl ⟨rfl, d, rfl, rfl⟩
        | none => exact Or.inr ⟨rfl, rfl, rfl⟩
    | retNone => rw [hres] at hc; simp at hc
    | retCsv df t => rw [hres] at hc; simp at hc
  · unfold export_sheet_to_csv at hc
    rw [if_neg hh] at hc
    simp at hc

theorem export_fallback_contract_witness :
    (export_sheet_to_csv envLoadFail wbExportC "Export").caught = true
    ∧ (((export_sheet_to_csv envLoadFail wbExportC "Export").tier
          = Tier.fallback
        ∧ ∃ d, fallbackRead envLoadFail
              (mainBody envLoadFail wbExportC "Export").file "Export" = some d
            ∧ (export_sheet_to_csv envLoadFail wbExportC "Export").ret
                = some (utf8Bytes (dfToCsv d)))
      ∨ ((export_sheet_to_csv envLoadFail wbExportC "Export").tier
          = Tier.failed
        ∧ fallbackRead envLoadFail
            (mainBody envLoadFail wbExportC "Export").file "Export" = none
        ∧ (export_sheet_to_csv envLoadFail wbExportC "Export").ret = none)) :=
  ⟨by decide,
    export_fallback_contract envLoadFail wbExportC "Export" (by decide)⟩

/-- C7. Degraded export is success: with the `Export` sheet present, no
recalculation engine, no faults, and every data cell an unresolved formula or
empty, the export still returns CSV bytes (never the failure sentinel), and
every cell of the flattened data is the empty/absent value. -/
theorem degraded_export_success (env : Env) (wb : Workbook) (nm : String)
    (sh : Sheet) (hs : lookupSheet wb nm = some sh)
    (h1 : env.saveFails = false) (h2 : env.xlw = XlwStatus.absent)
    (h3 : env.loadFails = false) (h4 : env.readFails = false)
    (h5 : env.calcSaveFails = false)
    (hform : ∀ row ∈ sh.rows.tail, ∀ c ∈ row,
        (∃ t, c = CellContent.formula t none) ∨ c = CellContent.empty) :
    (∃ b, (export_sheet_to_csv env wb nm).ret = some b)
    ∧ (export_sheet_to_csv env wb nm).tier ≠ Tier.failed
    ∧ (∃ d, (export_sheet_to_csv env wb nm).df = some d
        ∧ ∀ row ∈ d.data, ∀ v ∈ row, v = none) := by
  rw [export_noFault env wb nm sh hs h1 h2 h3 h4 h5]
  refine ⟨⟨_, rfl⟩, ?_, flattenSheet sh, rfl, ?_⟩
  · cases hpb : hasNoneValues sh.dataOnly with
    | true => simp [hpb]
    | false => simp [hpb]
  · intro row hrow v hv
    unfold flattenSheet at hrow
    rw [← List.map_tail] at hrow
    rw [List.mem_map] at hrow
    obtain ⟨row0, hrow0, hmap⟩ := hrow
    subst hmap
    rw [List.mem_map] at hv
    obtain ⟨c, hc, hval⟩ := hv
    subst hval
    rcases hform row0 hrow0 c hc with ⟨t, ht⟩ | ht <;> rw [ht] <;> rfl

theorem degraded_export_success_witness :
    lookupSheet wbExportB "Export" = some shExportB
    ∧ (∀ row ∈ shExportB.rows.tail, ∀ c ∈ row,
        (∃ t, c = CellContent.formula t none) ∨ c = CellContent.empty)
    ∧ ((∃ b, (export_sheet_to_csv envOk wbExportB "Export").ret = some b)
        ∧ (export_sheet_to_csv envOk wbExportB "Export").tier ≠ Tier.failed
        ∧ (∃ d, (export_sheet_to_csv envOk wbExportB "Export").df = some d
            ∧ ∀ row ∈ d.data, ∀ v ∈ row, v = none)) := by
  have hform : ∀ row ∈ shExportB.rows.tail, ∀ c ∈ row,
      (∃ t, c = CellContent.formula t none) ∨ c = CellContent.empty := by
    intro row hrow c hc
    unfold shExportB at hrow
    simp only [List.tail_cons, List.mem_singleton] at hrow
    subst hrow
    rcases hc with _ | ⟨_, hc2⟩
    · exact Or.inl ⟨['=', 'D', '4'], rfl⟩
    · rcases hc2 with _ | ⟨_, hc3⟩
      · exact Or.inr rfl
      · cases hc3
  exact ⟨by decide, hform,
    degraded_export_success envOk wbExportB "Export" shExportB (by decide)
      rfl rfl rfl rfl rfl hform⟩

/-- C8. Header preservation and CSV serialization: in a fault-free export the
flattened dataframe's header equals the sheet's first row (under the
cached-values view), and the returned bytes are exactly the UTF-8 encoding of
the comma-separated CSV text whose first line is that header, followed by the
newline-separated data rows with no index column. -/
theorem header_preservation_csv (env : Env) (wb : Workbook) (nm : String)
    (sh : Sheet) (hs : lookupSheet wb nm = some sh)
    (h1 : env.saveFails = false) (h2 : env.xlw = XlwStatus.absent)
    (h3 : env.loadFails = false) (h4 : env.readFails = false)
    (h5 : env.calcSaveFails = false) :
    ∃ d, (export_sheet_to_csv env wb nm).df = some d
      ∧ d.header = (sh.rows.headD []).map (fun c => c.dataOnly.value)
      ∧ (export_sheet_to_csv env wb nm).ret = some (utf8Bytes (dfToCsv d))
      ∧ dfToCsv d = csvLine d.header ++ '\n' :: csvLines d.data := by
  rw [export_noFault env wb nm sh hs h1 h2 h3 h4 h5]
  refine ⟨flattenSheet sh, rfl, ?_, rfl, rfl⟩
  obtain ⟨rows⟩ := sh
  cases rows with
  | nil => rfl
  | cons r t => rfl

theorem header_preservation_csv_witness :
    lookupSheet wbExportC "Export" = some shExportC
    ∧ envOk.loadFails = false
    ∧ (∃ d, (export_sheet_to_csv envOk wbExportC "Export").df = some d
        ∧ d.header
            = (shExportC.rows.headD []).map (fun c => c.dataOnly.value)
        ∧ (export_sheet_to_csv envOk wbExportC "Export").ret
            = some (utf8Bytes (dfToCsv d))
        ∧ dfToCsv d = csvLine d.header ++ '\n' :: csvLines d.data) :=
  ⟨by decide, rfl,
    header_preservation_csv envOk wbExportC "Export" shExportC (by decide)
      rfl rfl rfl rfl rfl⟩

/-- C9. Round-trip identity: on a workbook with a `Prices` sheet, writing
back exactly the values `get_current_prices` returned succeeds, and reading
again yields the same four values (a no-op edit is idempotent; no coercion is
involved because the values are written back as they are). -/
theorem roundtrip_prices (wb : Workbook) (p : PriceVals)
    (h : get_current_prices wb = some p) :
    (update_prices wb p).1 = true
    ∧ get_current_prices (update_prices wb p).2 = some p := by
  unfold get_current_prices at h
  cases hs : lookupSheet wb "Prices" with
  | none => rw [hs] at h; exact Option.noConfusion h
  | some sh =>
      rw [hs] at h
      have hp : PriceVals.mk (cellAt sh 3 3).value (cellAt sh 4 3).value
          (cellAt sh 5 3).value (cellAt sh 6 3).value = p := Option.some.inj h
      unfold update_prices
      rw [hs]
      refine ⟨rfl, ?_⟩
      unfold get_current_prices
      rw [show (true, Workbook.mk (wb.sheets.map (fun q =>
          (q.1, if q.1 == "Prices" then setPrices q.2 p else q.2)))
          "auto").2 = Workbook.mk (wb.sheets.map (fun q =>
          (q.1, if q.1 == "Prices" then setPrices q.2 p else q.2)))
          "auto" from rfl]
      rw [lookupSheet_setPrices, hs, Option.map_some']
      show some (PriceVals.mk
        (cellAt (if ("Prices" == "Prices") = true then setPrices sh p else sh)
          3 3).value
        (cellAt (if ("Prices" == "Prices") = true then setPrices sh p else sh)
          4 3).value
        (cellAt (if ("Prices" == "Prices") = true then setPrices sh p else sh)
          5 3).value
        (cellAt (if ("Prices" == "Prices") = true then setPrices sh p else sh)
          6 3).value) = some p
      rw [if_pos (show ("Prices" == "Prices") = true from rfl),
        cellAt_setPrices_d4, cellAt_setPrices_d5,
        cellAt_setPrices_d6, cellAt_setPrices_d7, value_contentOfAssign,
        value_contentOfAssign, value_contentOfAssign, value_contentOfAssign]

theorem roundtrip_prices_witness :
    get_current_prices wbPrices
        = some (PriceVals.mk (some (CVal.str ['1', '0']))
            (some (CVal.str ['2', '0'])) (some (CVal.str ['3', '0']))
            (some (CVal.str ['4', '0'])))
    ∧ ((update_prices wbPrices (PriceVals.mk (some (CVal.str ['1', '0']))
          (some (CVal.str ['2', '0'])) (some (CVal.str ['3', '0']))
          (some (CVal.str ['4', '0'])))).1 = true
        ∧ get_current_prices (update_prices wbPrices
            (PriceVals.mk (some (CVal.str ['1', '0']))
              (some (CVal.str ['2', '0'])) (some (CVal.str ['3', '0']))
              (some (CVal.str ['4', '0'])))).2
          = some (PriceVals.mk (some (CVal.str ['1', '0']))
              (some (CVal.str ['2', '0'])) (some (CVal.str ['3', '0']))
              (some (CVal.str ['4', '0'])))) :=
  ⟨by decide,
    roundtrip_prices wbPrices
      (PriceVals.mk (some (CVal.str ['1', '0'])) (some (CVal.str ['2', '0']))
        (some (CVal.str ['3', '0'])) (some (CVal.str ['4', '0'])))
      (by decide)⟩

/-- C10. Frame of a successful write: on a workbook with a `Prices` sheet,
`update_prices` returns `True`, sets the workbook calculation mode to `auto`,
keeps the sheet names, leaves every sheet other than `Prices` untouched,
replaces the `Prices` sheet by the four-cell update, writes exactly the
assigned contents into D4-D7 (grid cells (3,3)-(6,3)), and leaves every other
cell of the `Prices` sheet unchanged. -/
theorem update_prices_frame (wb : Workbook) (np : PriceVals) (sh : Sheet)
    (hs : lookupSheet wb "Prices" = some sh) :
    (update_prices wb np).1 = true
    ∧ (update_prices wb np).2.calcMode = "auto"
    ∧ sheetNames (update_prices wb np).2 = sheetNames wb
    ∧ (∀ nm, nm ≠ "Prices" →
        lookupSheet (update_prices wb np).2 nm = lookupSheet wb nm)
    ∧ lookupSheet (update_prices wb np).2 "Prices" = some (setPrices sh np)
    ∧ (∀ r c, ¬(c = 3 ∧ (r = 3 ∨ r = 4 ∨ r = 5 ∨ r = 6)) →
        cellAt (setPrices sh np) r c = cellAt sh r c)
    ∧ cellAt (setPrices sh np) 3 3 = contentOfAssign np.d4
    ∧ cellAt (setPrices sh np) 4 3 = contentOfAssign np.d5
    ∧ cellAt (setPrices sh np) 5 3 = contentOfAssign np.d6
    ∧ cellAt (setPrices sh np) 6 3 = contentOfAssign np.d7 := by
  unfold update_prices
  rw [hs]
  refine ⟨rfl, rfl, ?_, ?_, ?_, cellAt_setPrices_frame sh np,
    cellAt_setPrices_d4 sh np, cellAt_setPrices_d5 sh np,
    cellAt_setPrices_d6 sh np, cellAt_setPrices_d7 sh np⟩
  · show List.map Prod.fst (wb.sheets.map (fun q =>
        (q.1, if q.1 == "Prices" then setPrices q.2 np else q.2)))
        = sheetNames wb
    rw [map_fst_setPrices np wb.sheets]
    rfl
  · intro nm hne
    show lookupSheet (Workbook.mk (wb.sheets.map (fun q =>
        (q.1, if q.1 == "Prices" then setPrices q.2 np else q.2))) "auto") nm
        = lookupSheet wb nm
    rw [lookupSheet_setPrices]
    have hbe : (nm == "Prices") = false := by simp [hne]
    cases lookupSheet wb nm with
    | none => rfl
    | some s => rw [Option.map_some', hbe]; rfl
  · show lookupSheet (Workbook.mk (wb.sheets.map (fun q =>
        (q.1, if q.1 == "Prices" then setPrices q.2 np else q.2))) "auto")
        "Prices" = some (setPrices sh np)
    rw [lookupSheet_setPrices, hs, Option.map_some']
    rfl

theorem update_prices_frame_witness :
    lookupSheet wbPrices "Prices" = some shPrices
    ∧ ((update_prices wbPrices (PriceVals.mk none none
          (some (CVal.str ['9'])) none)).1 = true
        ∧ (update_prices wbPrices (PriceVals.mk none none
            (some (CVal.str ['9'])) none)).2.calcMode = "auto"
        ∧ sheetNames (update_prices wbPrices (PriceVals.mk none none
            (some (CVal.str ['9'])) none)).2 = sheetNames wbPrices
        ∧ (∀ nm, nm ≠ "Prices" →
            lookupSheet (update_prices wbPrices (PriceVals.mk none none
              (some (CVal.str ['9'])) none)).2 nm = lookupSheet wbPrices nm)
        ∧ lookupSheet (update_prices wbPrices (PriceVals.mk none none
            (some (CVal.str ['9'])) none)).2 "Prices"
            = some (setPrices shPrices (PriceVals.mk none none
                (some (CVal.str ['9'])) none))
        ∧ (∀ r c, ¬(c = 3 ∧ (r = 3 ∨ r = 4 ∨ r = 5 ∨ r = 6)) →
            cellAt (setPrices shPrices (PriceVals.mk none none
              (some (CVal.str ['9'])) none)) r c = cellAt shPrices r c)
        ∧ cellAt (setPrices shPrices (PriceVals.mk none none
            (some (CVal.str ['9'])) none)) 3 3 = contentOfAssign none
        ∧ cellAt (setPrices shPrices (PriceVals.mk none none
            (some (CVal.str ['9'])) none)) 4 3 = contentOfAssign none
        ∧ cellAt (setPrices shPrices (PriceVals.mk none none
            (some (CVal.str ['9'])) none)) 5 3
            = contentOfAssign (some (CVal.str ['9']))
        ∧ cellAt (setPrices shPrices (PriceVals.mk none none
            (some (CVal.str ['9'])) none)) 6 3 = contentOfAssign none) :=
  ⟨by decide,
    update_prices_frame wbPrices
      (PriceVals.mk none none (some (CVal.str ['9'])) none) shPrices
      (by decide)⟩

end WirePrice
